import Mathlib

/-!
Shallow embedding of the shoe-store GraphQL API
(`src/unnamed/part_000`, resolvers over a Prisma `Shoe` table).

The persisted state is one table of `Shoe` records.  The Prisma client is
an external dependency; its per-operation behaviour on this table
(`findMany`, `findUnique`, `create`, `update`, `delete`) is modelled from
the spec, and the eight resolvers are translated from the source, each one
a direct passthrough to the corresponding client call.
-/

/-- The `Shoe` entity, from the GraphQL type `Shoe` in `src/unnamed/part_000`:
`shoeId : String!`, `name : String!`, `price : Int!`, `isTrending : Boolean!`,
`isSoldOut : Boolean!`. -/
structure Shoe where
  shoeId : String
  name : String
  price : Int
  isTrending : Bool
  isSoldOut : Bool
deriving Repr, DecidableEq

/-- The persisted state: one table of `Shoe` records, kept in storage order. -/
abbrev Store := List Shoe

/-- Modelled from the spec: the persistence client generates a fresh
identifier at creation ("unique, generated at creation").  Concretely we
model the generator as the concatenation of every identifier already in
the store followed by one extra character, which is strictly longer than -
hence different from - every identifier in the store. -/
def freshId (s : Store) : String :=
  (s.map Shoe.shoeId).foldr (fun a b => a ++ b) "x"

/-- The optional field set passed to the client's `update` as `data`:
a field that the caller did not supply is absent and is skipped by the
client (partial update). -/
structure ShoeUpdateData where
  name : Option String
  price : Option Int
  isTrending : Option Bool
  isSoldOut : Option Bool
deriving Repr, DecidableEq

/-- Modelled from the spec: applying a partial `data` object to one record -
a supplied field is set to the supplied value, an absent field keeps its
prior value; the identifier is never part of `data`. -/
def applyUpdate (d : ShoeUpdateData) (sh : Shoe) : Shoe :=
  { sh with
    name := d.name.getD sh.name
    price := d.price.getD sh.price
    isTrending := d.isTrending.getD sh.isTrending
    isSoldOut := d.isSoldOut.getD sh.isSoldOut }

/-- Modelled from the spec: `prisma.shoe.findMany()` with no filter returns
every stored record in storage order, and does not modify the store. -/
def shoeFindMany (s : Store) : List Shoe × Store := (s, s)

/-- Modelled from the spec: `prisma.shoe.findMany({ where })` with an
equality filter on one boolean field returns exactly the stored records
matching the filter, in storage order, and does not modify the store. -/
def shoeFindManyWhere (p : Shoe → Bool) (s : Store) : List Shoe × Store :=
  (s.filter p, s)

/-- Modelled from the spec: `prisma.shoe.findUnique({ where: { shoeId } })`
is an exact-match lookup on the identifier, returning the record or
nothing, and does not modify the store. -/
def shoeFindUnique (i : String) (s : Store) : Option Shoe × Store :=
  (s.find? (fun sh => sh.shoeId == i), s)

/-- Modelled from the spec: `prisma.shoe.create({ data })` persists one new
record carrying the supplied field values and a generated identifier, and
returns the created record. -/
def shoeCreate (n : String) (p : Int) (t so : Bool) (s : Store) : Shoe × Store :=
  let sh : Shoe := ⟨freshId s, n, p, t, so⟩
  (sh, s ++ [sh])

/-- Modelled from the spec: `prisma.shoe.update({ where: { shoeId }, data })`
applies the partial `data` to the record with the given identifier and
returns the updated record; when no record has that identifier the client
raises a not-found error (`none`) and the store is untouched. -/
def shoeUpdate (i : String) (d : ShoeUpdateData) : Store → Option (Shoe × Store)
  | [] => none
  | sh :: rest =>
    if sh.shoeId == i then
      let sh2 := applyUpdate d sh
      some (sh2, sh2 :: rest)
    else
      (shoeUpdate i d rest).map (fun r => (r.1, sh :: r.2))

/-- Modelled from the spec: `prisma.shoe.delete({ where: { shoeId } })`
removes the record with the given identifier and returns its prior state;
when no record has that identifier the client raises a not-found error
(`none`) and the store is untouched. -/
def shoeDelete (i : String) : Store → Option (Shoe × Store)
  | [] => none
  | sh :: rest =>
    if sh.shoeId == i then
      some (sh, rest)
    else
      (shoeDelete i rest).map (fun r => (r.1, sh :: r.2))

/-- Resolver `getAllShoes`: returns `context.prisma.shoe.findMany()`. -/
def getAllShoes (s : Store) : List Shoe × Store :=
  shoeFindMany s

/-- Resolver `getShoeById`: returns
`context.prisma.shoe.findUnique({ where: { shoeId } })`. -/
def getShoeById (shoeId : String) (s : Store) : Option Shoe × Store :=
  shoeFindUnique shoeId s

/-- Resolver `getAllTrendingShoes`: returns
`context.prisma.shoe.findMany({ where: { isTrending: true } })`. -/
def getAllTrendingShoes (s : Store) : List Shoe × Store :=
  shoeFindManyWhere (fun sh => sh.isTrending) s

/-- Resolver `getAllSoldOutShoes`: returns
`context.prisma.shoe.findMany({ where: { isSoldOut: true } })`. -/
def getAllSoldOutShoes (s : Store) : List Shoe × Store :=
  shoeFindManyWhere (fun sh => sh.isSoldOut) s

/-- Resolver `createAShoe`: forwards the four supplied fields to
`context.prisma.shoe.create({ data: { name, price, isTrending, isSoldOut } })`. -/
def createAShoe (name : String) (price : Int) (isTrending isSoldOut : Bool)
    (s : Store) : Shoe × Store :=
  shoeCreate name price isTrending isSoldOut s

/-- Resolver `updateAShoe`: forwards the identifier and the optional fields to
`context.prisma.shoe.update({ where: { shoeId }, data: { name, price, isTrending, isSoldOut } })`. -/
def updateAShoe (shoeId : String) (d : ShoeUpdateData) (s : Store) :
    Option (Shoe × Store) :=
  shoeUpdate shoeId d s

/-- Resolver `markAShoeAsSoldOut`: forwards the identifier to
`context.prisma.shoe.update({ where: { shoeId }, data: { isSoldOut: true } })`. -/
def markAShoeAsSoldOut (shoeId : String) (s : Store) : Option (Shoe × Store) :=
  shoeUpdate shoeId ⟨none, none, none, some true⟩ s

/-- Resolver `deleteAShoe`: forwards the identifier to
`context.prisma.shoe.delete({ where: { shoeId } })`. -/
def deleteAShoe (shoeId : String) (s : Store) : Option (Shoe × Store) :=
  shoeDelete shoeId s

/-- One mutation of the operation surface. -/
inductive Op where
  | create (name : String) (price : Int) (isTrending isSoldOut : Bool)
  | update (shoeId : String) (d : ShoeUpdateData)
  | markSoldOut (shoeId : String)
  | delete (shoeId : String)
deriving Repr, DecidableEq

/-- The store after dispatching one mutation: a failing mutation
(not-found error propagated unmodified) leaves the store unchanged. -/
def applyOp (op : Op) (s : Store) : Store :=
  match op with
  | .create n p t so => (createAShoe n p t so s).2
  | .update i d =>
    match updateAShoe i d s with
    | some r => r.2
    | none => s
  | .markSoldOut i =>
    match markAShoeAsSoldOut i s with
    | some r => r.2
    | none => s
  | .delete i =>
    match deleteAShoe i s with
    | some r => r.2
    | none => s

/-- The store after a sequence of mutations. -/
def runOps (ops : List Op) (s : Store) : Store :=
  ops.foldl (fun s op => applyOp op s) s

/-- The identifier-uniqueness invariant of the table: the `shoeId` column
is a primary key, so all stored identifiers are pairwise distinct. -/
abbrev idsNodup (s : Store) : Prop :=
  (s.map Shoe.shoeId).Nodup

/-! Helper lemmas. -/

lemma freshId_cons (a : Shoe) (s : Store) :
    freshId (a :: s) = a.shoeId ++ freshId s := rfl

lemma string_length_append (a b : String) :
    (a ++ b).length = a.length + b.length :=
  String.length_append a b

lemma freshId_length_pos (s : Store) : 0 < (freshId s).length := by
  induction s with
  | nil => decide
  | cons a rest ih =>
    rw [freshId_cons, string_length_append]
    omega

lemma shoeId_length_lt_freshId (s : Store) (sh : Shoe) (h : sh ∈ s) :
    sh.shoeId.length < (freshId s).length := by
  induction s with
  | nil => cases h
  | cons a rest ih =>
    rw [freshId_cons, string_length_append]
    rcases List.mem_cons.mp h with h1 | h2
    · subst h1
      have := freshId_length_pos rest
      omega
    · have := ih h2
      omega

lemma freshId_not_mem (s : Store) (sh : Shoe) (h : sh ∈ s) :
    sh.shoeId ≠ freshId s := by
  intro he
  have hlt := shoeId_length_lt_freshId s sh h
  rw [he] at hlt
  exact lt_irrefl _ hlt

lemma find?_append_of_none {α : Type} (p : α → Bool) (l1 l2 : List α)
    (h : ∀ x ∈ l1, p x = false) :
    List.find? p (l1 ++ l2) = List.find? p l2 := by
  induction l1 with
  | nil => rfl
  | cons a rest ih =>
    rw [List.cons_append, List.find?_cons_of_neg _ (by simp [h a (List.mem_cons_self a rest)])]
    exact ih (fun x hx => h x (List.mem_cons_of_mem a hx))

lemma shoeUpdate_cons_hit (i : String) (d : ShoeUpdateData) (a : Shoe) (s : Store)
    (h : a.shoeId = i) :
    shoeUpdate i d (a :: s) = some (applyUpdate d a, applyUpdate d a :: s) := by
  simp [shoeUpdate, h]

lemma shoeUpdate_cons_skip (i : String) (d : ShoeUpdateData) (a : Shoe) (s : Store)
    (h : a.shoeId ≠ i) :
    shoeUpdate i d (a :: s) = (shoeUpdate i d s).map (fun r => (r.1, a :: r.2)) := by
  simp [shoeUpdate, h]

lemma shoeDelete_cons_hit (i : String) (a : Shoe) (s : Store) (h : a.shoeId = i) :
    shoeDelete i (a :: s) = some (a, s) := by
  simp [shoeDelete, h]

lemma shoeDelete_cons_skip (i : String) (a : Shoe) (s : Store) (h : a.shoeId ≠ i) :
    shoeDelete i (a :: s) = (shoeDelete i s).map (fun r => (r.1, a :: r.2)) := by
  simp [shoeDelete, h]

lemma shoeUpdate_found (i : String) (d : ShoeUpdateData) (s1 s2 : Store) (sh : Shoe)
    (h1 : ∀ x ∈ s1, x.shoeId ≠ i) (h2 : sh.shoeId = i) :
    shoeUpdate i d (s1 ++ sh :: s2)
      = some (applyUpdate d sh, s1 ++ applyUpdate d sh :: s2) := by
  induction s1 with
  | nil => simpa using shoeUpdate_cons_hit i d sh s2 h2
  | cons a rest ih =>
    rw [List.cons_append,
      shoeUpdate_cons_skip i d a _ (h1 a (List.mem_cons_self a rest)),
      ih (fun x hx => h1 x (List.mem_cons_of_mem a hx))]
    rfl

lemma shoeDelete_found (i : String) (s1 s2 : Store) (sh : Shoe)
    (h1 : ∀ x ∈ s1, x.shoeId ≠ i) (h2 : sh.shoeId = i) :
    shoeDelete i (s1 ++ sh :: s2) = some (sh, s1 ++ s2) := by
  induction s1 with
  | nil => simpa using shoeDelete_cons_hit i sh s2 h2
  | cons a rest ih =>
    rw [List.cons_append,
      shoeDelete_cons_skip i a _ (h1 a (List.mem_cons_self a rest)),
      ih (fun x hx => h1 x (List.mem_cons_of_mem a hx))]
    rfl

lemma shoeUpdate_none (i : String) (d : ShoeUpdateData) (s : Store)
    (h : ∀ x ∈ s, x.shoeId ≠ i) : shoeUpdate i d s = none := by
  induction s with
  | nil => rfl
  | cons a rest ih =>
    rw [shoeUpdate_cons_skip i d a rest (h a (List.mem_cons_self a rest)),
      ih (fun x hx => h x (List.mem_cons_of_mem a hx))]
    rfl

lemma shoeDelete_none (i : String) (s : Store)
    (h : ∀ x ∈ s, x.shoeId ≠ i) : shoeDelete i s = none := by
  induction s with
  | nil => rfl
  | cons a rest ih =>
    rw [shoeDelete_cons_skip i a rest (h a (List.mem_cons_self a rest)),
      ih (fun x hx => h x (List.mem_cons_of_mem a hx))]
    rfl

lemma shoeUpdate_map_shoeId (i : String) (d : ShoeUpdateData) :
    ∀ (s : Store) (r : Shoe) (s' : Store), shoeUpdate i d s = some (r, s') →
      s'.map Shoe.shoeId = s.map Shoe.shoeId := by
  intro s
  induction s with
  | nil =>
    intro r s' h
    simp [shoeUpdate] at h
  | cons a rest ih =>
    intro r s' h
    by_cases ha : a.shoeId = i
    · rw [shoeUpdate_cons_hit i d a rest ha] at h
      injection h with h2
      injection h2 with hr hs
      subst hs
      simp [applyUpdate]
    · rw [shoeUpdate_cons_skip i d a rest ha] at h
      obtain ⟨⟨r0, rest0⟩, hrec, heq⟩ := Option.map_eq_some'.mp h
      injection heq with hr hs
      subst hs
      simp [ih r0 rest0 hrec]

lemma shoeDelete_sublist (i : String) :
    ∀ (s : Store) (r : Shoe) (s' : Store), shoeDelete i s = some (r, s') →
      List.Sublist s' s := by
  intro s
  induction s with
  | nil =>
    intro r s' h
    simp [shoeDelete] at h
  | cons a rest ih =>
    intro r s' h
    by_cases ha : a.shoeId = i
    · rw [shoeDelete_cons_hit i a rest ha] at h
      injection h with h2
      injection h2 with hr hs
      subst hs
      exact List.sublist_cons_self a rest
    · rw [shoeDelete_cons_skip i a rest ha] at h
      obtain ⟨⟨r0, rest0⟩, hrec, heq⟩ := Option.map_eq_some'.mp h
      injection heq with hr hs
      subst hs
      exact List.Sublist.cons₂ a (ih r0 rest0 hrec)

lemma shoeDelete_removes_all (i : String) :
    ∀ (s : Store) (r : Shoe) (s' : Store), idsNodup s → shoeDelete i s = some (r, s') →
      ∀ x ∈ s', x.shoeId ≠ i := by
  intro s
  induction s with
  | nil =>
    intro r s' _ h
    simp [shoeDelete] at h
  | cons a rest ih =>
    intro r s' hnd h
    rw [idsNodup, List.map_cons, List.nodup_cons] at hnd
    by_cases ha : a.shoeId = i
    · rw [shoeDelete_cons_hit i a rest ha] at h
      injection h with h2
      injection h2 with hr hs
      subst hs
      intro x hx he
      exact hnd.1 (ha ▸ he ▸ List.mem_map_of_mem Shoe.shoeId hx)
    · rw [shoeDelete_cons_skip i a rest ha] at h
      obtain ⟨⟨r0, rest0⟩, hrec, heq⟩ := Option.map_eq_some'.mp h
      injection heq with hr hs
      subst hs
      intro x hx
      rcases List.mem_cons.mp hx with h1 | h2
      · exact h1 ▸ ha
      · exact ih r0 rest0 hnd.2 hrec x h2

lemma createAShoe_eq (n : String) (p : Int) (t so : Bool) (s : Store) :
    createAShoe n p t so s = (⟨freshId s, n, p, t, so⟩, s ++ [⟨freshId s, n, p, t, so⟩]) :=
  rfl

lemma applyOp_nodup (op : Op) (s : Store) (h : idsNodup s) :
    idsNodup (applyOp op s) := by
  cases op with
  | create n p t so =>
    show ((s ++ [(⟨freshId s, n, p, t, so⟩ : Shoe)]).map Shoe.shoeId).Nodup
    rw [List.map_append, List.map_cons, List.map_nil, List.nodup_append]
    refine ⟨h, List.nodup_singleton _, ?_⟩
    intro x hx hy
    obtain ⟨sh, hsh, rfl⟩ := List.mem_map.mp hx
    rw [List.mem_singleton] at hy
    exact freshId_not_mem s sh hsh hy
  | update i d =>
    rw [applyOp]
    cases hu : updateAShoe i d s with
    | none => exact h
    | some r =>
      show ((r.2).map Shoe.shoeId).Nodup
      rw [shoeUpdate_map_shoeId i d s r.1 r.2 (by rw [← hu]; rfl)]
      exact h
  | markSoldOut i =>
    rw [applyOp]
    cases hu : markAShoeAsSoldOut i s with
    | none => exact h
    | some r =>
      show ((r.2).map Shoe.shoeId).Nodup
      rw [shoeUpdate_map_shoeId i ⟨none, none, none, some true⟩ s r.1 r.2 (by rw [← hu]; rfl)]
      exact h
  | delete i =>
    rw [applyOp]
    cases hd : deleteAShoe i s with
    | none => exact h
    | some r =>
      show ((r.2).map Shoe.shoeId).Nodup
      exact ((shoeDelete_sublist i s r.1 r.2 (by rw [← hd]; rfl)).map Shoe.shoeId).nodup h

lemma runOps_nodup (ops : List Op) : ∀ s : Store, idsNodup s → idsNodup (runOps ops s) := by
  induction ops with
  | nil => exact fun s h => h
  | cons op rest ih => exact fun s h => ih (applyOp op s) (applyOp_nodup op s h)

/-! Claim theorems. -/

/-- C1: for every input (name, price, isTrending, isSoldOut), executing
`createAShoe` and then `getShoeById` with the created record's identifier
returns the created record, whose name, price, isTrending and isSoldOut
fields equal the values given to `createAShoe`. -/
theorem createThenGetByIdRoundTrip (s : Store) (n : String) (p : Int) (t so : Bool) :
    (getShoeById (createAShoe n p t so s).1.shoeId (createAShoe n p t so s).2).1
        = some (createAShoe n p t so s).1 ∧
    (createAShoe n p t so s).1.name = n ∧
    (createAShoe n p t so s).1.price = p ∧
    (createAShoe n p t so s).1.isTrending = t ∧
    (createAShoe n p t so s).1.isSoldOut = so := by
  refine ⟨?_, rfl, rfl, rfl, rfl⟩
  have hfalse : ∀ x ∈ s, ((fun sh : Shoe => sh.shoeId == freshId s) x) = false :=
    fun x hx => beq_eq_false_iff_ne.mpr (freshId_not_mem s x hx)
  rw [createAShoe_eq]
  show List.find? (fun sh => sh.shoeId == freshId s) (s ++ [⟨freshId s, n, p, t, so⟩])
      = some ⟨freshId s, n, p, t, so⟩
  rw [find?_append_of_none _ s _ hfalse]
  simp [List.find?]

/-- C2: for every store, `getAllTrendingShoes` returns exactly the records
whose isTrending field is true, and `getAllSoldOutShoes` returns exactly
the records whose isSoldOut field is true: membership in the result is
equivalent to membership in the store plus the boolean. -/
theorem filtersReturnExactSubset (s : Store) (sh : Shoe) :
    (sh ∈ (getAllTrendingShoes s).1 ↔ sh ∈ s ∧ sh.isTrending = true) ∧
    (sh ∈ (getAllSoldOutShoes s).1 ↔ sh ∈ s ∧ sh.isSoldOut = true) := by
  constructor
  · show sh ∈ s.filter (fun sh => sh.isTrending) ↔ _
    simp [List.mem_filter]
  · show sh ∈ s.filter (fun sh => sh.isSoldOut) ↔ _
    simp [List.mem_filter]

/-- C3: for every store containing a record with the given shoeId (first
such record `sh`, preceded by records `s1` without that identifier), and
every subset of the optional arguments, `updateAShoe` produces a record
whose supplied fields hold the supplied values and whose other fields
retain their prior values, and leaves every other record unchanged. -/
theorem updateAppliesOnlySuppliedFields (s1 s2 : Store) (sh : Shoe) (i : String)
    (d : ShoeUpdateData) (h1 : ∀ x ∈ s1, x.shoeId ≠ i) (h2 : sh.shoeId = i) :
    ∃ r : Shoe, updateAShoe i d (s1 ++ sh :: s2) = some (r, s1 ++ r :: s2) ∧
      r.shoeId = sh.shoeId ∧
      r.name = d.name.getD sh.name ∧
      r.price = d.price.getD sh.price ∧
      r.isTrending = d.isTrending.getD sh.isTrending ∧
      r.isSoldOut = d.isSoldOut.getD sh.isSoldOut :=
  ⟨applyUpdate d sh, shoeUpdate_found i d s1 s2 sh h1 h2, rfl, rfl, rfl, rfl, rfl⟩

/-- C3 witness: a concrete partial update (new name, set isTrending) on a
three-record store. -/
theorem updateAppliesOnlySuppliedFields_witness :
    ∃ r : Shoe, updateAShoe "b" ⟨some "B2", none, some true, none⟩
        ([⟨"a", "A", 1, false, false⟩]
          ++ (⟨"b", "B", 2, false, false⟩ : Shoe) :: [⟨"c", "C", 3, true, true⟩])
        = some (r, [⟨"a", "A", 1, false, false⟩] ++ r :: [⟨"c", "C", 3, true, true⟩]) ∧
      r.shoeId = (⟨"b", "B", 2, false, false⟩ : Shoe).shoeId ∧
      r.name = (some "B2").getD (⟨"b", "B", 2, false, false⟩ : Shoe).name ∧
      r.price = (none : Option Int).getD (⟨"b", "B", 2, false, false⟩ : Shoe).price ∧
      r.isTrending = (some true).getD (⟨"b", "B", 2, false, false⟩ : Shoe).isTrending ∧
      r.isSoldOut = (none : Option Bool).getD (⟨"b", "B", 2, false, false⟩ : Shoe).isSoldOut :=
  updateAppliesOnlySuppliedFields [⟨"a", "A", 1, false, false⟩] [⟨"c", "C", 3, true, true⟩]
    ⟨"b", "B", 2, false, false⟩ "b" ⟨some "B2", none, some true, none⟩
    (by decide) (by decide)

/-- C4: for every store containing a record with the given shoeId,
`markAShoeAsSoldOut` sets that record's isSoldOut field to true regardless
of its prior value, keeps its shoeId, name, price and isTrending fields,
and leaves all other records unchanged. -/
theorem markSoldOutSetsOnlyThatFlag (s1 s2 : Store) (sh : Shoe) (i : String)
    (h1 : ∀ x ∈ s1, x.shoeId ≠ i) (h2 : sh.shoeId = i) :
    markAShoeAsSoldOut i (s1 ++ sh :: s2) =
      some (⟨sh.shoeId, sh.name, sh.price, sh.isTrending, true⟩,
        s1 ++ (⟨sh.shoeId, sh.name, sh.price, sh.isTrending, true⟩ : Shoe) :: s2) :=
  shoeUpdate_found i ⟨none, none, none, some true⟩ s1 s2 sh h1 h2

/-- C4 witness: marking a record whose isSoldOut was false, between two
untouched neighbours. -/
theorem markSoldOutSetsOnlyThatFlag_witness :
    markAShoeAsSoldOut "b"
        ([⟨"a", "A", 1, false, false⟩]
          ++ (⟨"b", "B", 2, true, false⟩ : Shoe) :: [⟨"c", "C", 3, false, false⟩]) =
      some (⟨"b", "B", 2, true, true⟩,
        [⟨"a", "A", 1, false, false⟩]
          ++ (⟨"b", "B", 2, true, true⟩ : Shoe) :: [⟨"c", "C", 3, false, false⟩]) :=
  markSoldOutSetsOnlyThatFlag [⟨"a", "A", 1, false, false⟩] [⟨"c", "C", 3, false, false⟩]
    ⟨"b", "B", 2, true, false⟩ "b" (by decide) (by decide)

/-- C5: on a store whose identifiers are pairwise distinct (the primary-key
invariant), once `deleteAShoe` succeeds no record with that shoeId remains,
and a subsequent `getShoeById` for that identifier returns nothing. -/
theorem deleteThenGetByIdFails (s : Store) (i : String) (r : Shoe) (s' : Store)
    (hnd : idsNodup s) (h : deleteAShoe i s = some (r, s')) :
    (∀ x ∈ s', x.shoeId ≠ i) ∧ (getShoeById i s').1 = none := by
  have hall := shoeDelete_removes_all i s r s' hnd h
  refine ⟨hall, ?_⟩
  show List.find? (fun sh => sh.shoeId == i) s' = none
  rw [List.find?_eq_none]
  intro x hx
  simp [hall x hx]

/-- C5 witness: deleting the first record of a two-record store. -/
theorem deleteThenGetByIdFails_witness :
    (∀ x ∈ ([⟨"b", "B", 2, false, true⟩] : Store), x.shoeId ≠ "a") ∧
    (getShoeById "a" [⟨"b", "B", 2, false, true⟩]).1 = none :=
  deleteThenGetByIdFails [⟨"a", "A", 1, true, false⟩, ⟨"b", "B", 2, false, true⟩] "a"
    ⟨"a", "A", 1, true, false⟩ [⟨"b", "B", 2, false, true⟩] (by decide) (by decide)

/-- C6: for every store containing a record with the given shoeId,
`deleteAShoe` returns that record exactly as it was before the deletion
(all five fields) and removes only that record, leaving every other
record unchanged. -/
theorem deleteReturnsPriorState (s1 s2 : Store) (sh : Shoe) (i : String)
    (h1 : ∀ x ∈ s1, x.shoeId ≠ i) (h2 : sh.shoeId = i) :
    deleteAShoe i (s1 ++ sh :: s2) = some (sh, s1 ++ s2) :=
  shoeDelete_found i s1 s2 sh h1 h2

/-- C6 witness: deleting the middle record of a three-record store. -/
theorem deleteReturnsPriorState_witness :
    deleteAShoe "b"
        ([⟨"a", "A", 1, true, false⟩]
          ++ (⟨"b", "B", 2, false, true⟩ : Shoe) :: [⟨"c", "C", 3, false, false⟩])
      = some (⟨"b", "B", 2, false, true⟩,
        [⟨"a", "A", 1, true, false⟩] ++ [⟨"c", "C", 3, false, false⟩]) :=
  deleteReturnsPriorState [⟨"a", "A", 1, true, false⟩] [⟨"c", "C", 3, false, false⟩]
    ⟨"b", "B", 2, false, true⟩ "b" (by decide) (by decide)

/-- C7: for every store, `getAllShoes` returns every stored record with
nothing omitted, filtered or paginated, in storage order: the result is
the store itself. -/
theorem getAllShoesReturnsEverything (s : Store) :
    (getAllShoes s).1 = s ∧ ∀ sh : Shoe, sh ∈ (getAllShoes s).1 ↔ sh ∈ s :=
  ⟨rfl, fun _ => Iff.rfl⟩

/-- C8: `createAShoe` persists exactly one new record (appended to the
store) carrying the four supplied values and a generated shoeId different
from every shoeId already stored; consequently, from any store whose
records have pairwise distinct shoeIds, after every sequence of the
mutations the records still have pairwise distinct shoeIds. -/
theorem createFreshIdKeepsIdsDistinct (s : Store) (n : String) (p : Int) (t so : Bool)
    (ops : List Op) (h : List.Pairwise (fun a b : Shoe => a.shoeId ≠ b.shoeId) s) :
    ((createAShoe n p t so s).2 = s ++ [(createAShoe n p t so s).1] ∧
      (createAShoe n p t so s).1.name = n ∧
      (createAShoe n p t so s).1.price = p ∧
      (createAShoe n p t so s).1.isTrending = t ∧
      (createAShoe n p t so s).1.isSoldOut = so ∧
      ∀ x ∈ s, x.shoeId ≠ (createAShoe n p t so s).1.shoeId) ∧
    List.Pairwise (fun a b : Shoe => a.shoeId ≠ b.shoeId) (runOps ops s) := by
  refine ⟨⟨rfl, rfl, rfl, rfl, rfl, fun x hx => freshId_not_mem s x hx⟩, ?_⟩
  have h1 : idsNodup s := List.pairwise_map.mpr h
  exact List.pairwise_map.mp (runOps_nodup ops s h1)

/-- C8 witness: one concrete create on a one-record store, and a concrete
mutation sequence (create, mark sold out, delete). -/
theorem createFreshIdKeepsIdsDistinct_witness :
    (((createAShoe "N" 140 true false [⟨"a", "A", 1, true, false⟩]).2
        = [⟨"a", "A", 1, true, false⟩]
          ++ [(createAShoe "N" 140 true false [⟨"a", "A", 1, true, false⟩]).1] ∧
      (createAShoe "N" 140 true false [⟨"a", "A", 1, true, false⟩]).1.name = "N" ∧
      (createAShoe "N" 140 true false [⟨"a", "A", 1, true, false⟩]).1.price = 140 ∧
      (createAShoe "N" 140 true false [⟨"a", "A", 1, true, false⟩]).1.isTrending = true ∧
      (createAShoe "N" 140 true false [⟨"a", "A", 1, true, false⟩]).1.isSoldOut = false ∧
      ∀ x ∈ ([⟨"a", "A", 1, true, false⟩] : Store),
        x.shoeId ≠ (createAShoe "N" 140 true false [⟨"a", "A", 1, true, false⟩]).1.shoeId) ∧
    List.Pairwise (fun a b : Shoe => a.shoeId ≠ b.shoeId)
      (runOps [Op.create "M" 2 false false, Op.markSoldOut "a", Op.delete "a"]
        [⟨"a", "A", 1, true, false⟩])) :=
  createFreshIdKeepsIdsDistinct [⟨"a", "A", 1, true, false⟩] "N" 140 true false
    [Op.create "M" 2 false false, Op.markSoldOut "a", Op.delete "a"] (by decide)

/-- C9: for every store with no record carrying the given shoeId, each of
`updateAShoe`, `markAShoeAsSoldOut` and `deleteAShoe` propagates the
client's not-found error instead of returning a Shoe, and the store is
unchanged by the failed mutation. -/
theorem mutationsOnMissingIdFail (s : Store) (i : String) (d : ShoeUpdateData)
    (h : ∀ x ∈ s, x.shoeId ≠ i) :
    updateAShoe i d s = none ∧ markAShoeAsSoldOut i s = none ∧
    deleteAShoe i s = none ∧
    applyOp (Op.update i d) s = s ∧ applyOp (Op.markSoldOut i) s = s ∧
    applyOp (Op.delete i) s = s := by
  have hu : updateAShoe i d s = none := shoeUpdate_none i d s h
  have hm : markAShoeAsSoldOut i s = none :=
    shoeUpdate_none i ⟨none, none, none, some true⟩ s h
  have hd : deleteAShoe i s = none := shoeDelete_none i s h
  refine ⟨hu, hm, hd, ?_, ?_, ?_⟩
  · rw [applyOp, hu]
  · rw [applyOp, hm]
  · rw [applyOp, hd]

/-- C9 witness: a one-record store and an identifier it does not hold. -/
theorem mutationsOnMissingIdFail_witness :
    updateAShoe "z" ⟨some "N", none, none, none⟩ [⟨"a", "A", 1, true, false⟩] = none ∧
    markAShoeAsSoldOut "z" [⟨"a", "A", 1, true, false⟩] = none ∧
    deleteAShoe "z" [⟨"a", "A", 1, true, false⟩] = none ∧
    applyOp (Op.update "z" ⟨some "N", none, none, none⟩) [⟨"a", "A", 1, true, false⟩]
      = [⟨"a", "A", 1, true, false⟩] ∧
    applyOp (Op.markSoldOut "z") [⟨"a", "A", 1, true, false⟩]
      = [⟨"a", "A", 1, true, false⟩] ∧
    applyOp (Op.delete "z") [⟨"a", "A", 1, true, false⟩]
      = [⟨"a", "A", 1, true, false⟩] :=
  mutationsOnMissingIdFail [⟨"a", "A", 1, true, false⟩] "z"
    ⟨some "N", none, none, none⟩ (by decide)

/-- C10: for every store and every argument, each of the four query
operations leaves the store exactly unchanged. -/
theorem queriesLeaveStoreUnchanged (s : Store) (i : String) :
    (getAllShoes s).2 = s ∧ (getShoeById i s).2 = s ∧
    (getAllTrendingShoes s).2 = s ∧ (getAllSoldOutShoes s).2 = s :=
  ⟨rfl, rfl, rfl, rfl⟩
